import Mathlib

/-!
Shallow embedding of the iterator/generator teaching notebooks
(chapter on iterators/iterables/for-loops, and chapter
02-generators-revisited) as explicit state machines.

Conventions of the embedding:
* Each Python generator or iterator becomes a state type together with
  total step functions.  A resumption call (`__next__` / `send` / `throw` /
  `close`) maps a state to a result and a successor state.
* The result of a resumption call is a `GenResult`:
  `yielded v` means the call returned the produced value `v`;
  `stopIteration v?` means the call raised `StopIteration`, with
  `v?` the optional payload of its `value` attribute;
  `error e` means the call raised the exception `e`.
* Printed output, where it matters to a claim, is modelled as an explicit
  list of strings returned alongside the step (apostrophes that appear in
  the original message texts are elided).
-/

/-- The exceptions that occur in the notebooks, other than `StopIteration`
(which is represented by the `GenResult.stopIteration` constructor since the
notebooks treat it as the termination signal, not as an injectable error). -/
inductive PyExc : Type
  | typeError (msg : String)
  | valueError (msg : String)
  | keyError (key : String)
  | runtimeError (msg : String)
  | expectedError
  | stopAdder
  | generatorExit
deriving DecidableEq, Repr

/-- Result of one resumption call on an iterator/generator:
the call returned a produced value, raised `StopIteration` (with the
optional payload of its `value` attribute), or raised another exception. -/
inductive GenResult (α β : Type) : Type
  | yielded (v : α)
  | stopIteration (v : Option β)
  | error (e : PyExc)
deriving DecidableEq, Repr

/-- Python objects passed as the `stop` argument: an int, or a non-int
(modelled by a string, as any non-int triggers the same `TypeError`). -/
inductive PyObj : Type
  | int (n : Int)
  | str (s : String)
deriving DecidableEq, Repr

/-! ## `RangeIterator` (first notebook)

```python
class RangeIterator(collections.Iterator):
    def __init__(self, stop):
        if not isinstance(stop, int):
            raise TypeError('stop must be an int')
        if stop < 0:
            raise ValueError('stop must be >= 0')
        super().__init__()
        self.stop = stop
        self.next_item = 0 if (stop > 0) else StopIteration()

    def __next__(self):
        item = self.next_item
        if isinstance(item, StopIteration):
            raise StopIteration
        self.next_item += 1
        if self.next_item >= self.stop:
            self.next_item = StopIteration()
        return item
```
`next_item` is either an int or a `StopIteration()` marker; the marker is
`Sum.inr ()` here. -/
structure RangeIterator : Type where
  stop : Int
  next_item : Int ⊕ Unit
deriving DecidableEq, Repr

/-- `RangeIterator.__init__`: validation happens eagerly, at construction
time; `TypeError` for a non-int `stop`, `ValueError` for a negative one. -/
def RangeIterator.init (stop : PyObj) : Except PyExc RangeIterator :=
  match stop with
  | .str _ => .error (.typeError "stop must be an int")
  | .int n =>
    if n < 0 then .error (.valueError "stop must be >= 0")
    else .ok ⟨n, if 0 < n then .inl 0 else .inr ()⟩

/-- `RangeIterator.__next__`: `none` means the call raised `StopIteration`.
Raising leaves the state unchanged; otherwise `next_item` is incremented and
replaced by the marker once it reaches `stop`. -/
def RangeIterator.nextCall (it : RangeIterator) : Option Int × RangeIterator :=
  match it.next_item with
  | .inr _ => (none, it)
  | .inl item =>
    if it.stop ≤ item + 1 then (some item, ⟨it.stop, .inr ()⟩)
    else (some item, ⟨it.stop, .inl (item + 1)⟩)

/-- `next(iterator, default)` as documented in the first notebook:
```python
try:
    value = iterator.__next__()
except StopIteration:
    value = default
```
-/
def RangeIterator.nextDefault (it : RangeIterator) (default : Int) :
    Int × RangeIterator :=
  match it.nextCall with
  | (none, it') => (default, it')
  | (some v, it') => (v, it')

/-- The results of `m` successive `__next__()` calls. -/
def RangeIterator.callList (it : RangeIterator) : Nat → List (Option Int)
  | 0 => []
  | m + 1 => it.nextCall.1 :: (it.nextCall.2).callList m

/-- The iterator state after `m` successive `__next__()` calls. -/
def RangeIterator.afterCalls (it : RangeIterator) : Nat → RangeIterator
  | 0 => it
  | m + 1 => it.nextCall.2.afterCalls m

/-- A freshly constructed `RangeIterator(n)` for a valid limit `n`. -/
def mkRange (n : Nat) : RangeIterator :=
  ⟨(n : Int), if (0 : Int) < n then .inl 0 else .inr ()⟩

/-- The expected observation sequence for a limit-`n` iterator over `n + 1`
calls: the values `0, …, n-1` and then one `StopIteration`. -/
def expectedCalls (n : Nat) : List (Option Int) :=
  ((List.range n).map fun i : Nat => some (i : Int)) ++ [none]

/-- `RangeIterable` (first notebook): a reusable producer whose
`__iter__()` returns a brand-new `RangeIterator(stop=self.stop)`. -/
structure RangeIterable : Type where
  stop : Int
deriving DecidableEq, Repr

/-- `RangeIterable.__iter__`: construct a fresh cursor (the constructor
validates `stop`, so this can raise). -/
def RangeIterable.iter (r : RangeIterable) : Except PyExc RangeIterator :=
  RangeIterator.init (.int r.stop)

/-! ## The for-loop and its desugaring (first notebook)

```python
def manual_simplified_for_loop(iterable, function):
    iterator = iter(iterable)
    running = True
    while running:
        try:
            item = next(iterator)
        except StopIteration:
            running = False
        else:
            function(item)
```
The iterator is abstracted as a state `s : σ` with a step `nextFn` returning
`none` for `StopIteration`.  The observable behaviour is the list of results
of the calls `function(item)`, in call order; `none` as the overall result
means the fuel bound was hit before the iterator terminated (the Python
loop simply has no such bound). -/
def manual_simplified_for_loop {σ α γ : Type} (nextFn : σ → Option α × σ)
    (f : α → γ) : Nat → σ → Option (List γ)
  | 0, _ => none
  | fuel + 1, s =>
    match nextFn s with
    | (none, _) => some []
    | (some v, s') => (manual_simplified_for_loop nextFn f fuel s').map (f v :: ·)

/-- The for-loop construct, per the desugaring given in the same notebook:
```python
iterator = iter(iterable)
running = True
while running:
    try:
        TARGET = next(iterator)
    except StopIteration:
        running = False
    else:
        BLOCK
```
modelled with the explicit `running` flag of the while-loop. -/
def forLoopConstruct {σ α γ : Type} (nextFn : σ → Option α × σ) (f : α → γ) :
    Nat → σ → Bool → Option (List γ)
  | _, _, false => some []
  | 0, _, true => none
  | fuel + 1, s, true =>
    match nextFn s with
    | (none, s') => forLoopConstruct nextFn f fuel s' false
    | (some v, s') => (forLoopConstruct nextFn f fuel s' true).map (f v :: ·)

/-! ## The range generator (second notebook)

```python
def range_generator_function(stop):
    print("Running line 1")
    if not isinstance(stop, int):
        raise TypeError('stop must be an int')
    if stop < 0:
        raise ValueError('stop must be >= 0')
    print("Running line 2")
    range_generator = _range_generator_function(stop=stop)
    print("Running line 3")
    return range_generator

def _range_generator_function(stop):
    index = 0
    print("Running line 4")
    while index < stop:
        print("Running line 5 with index", index)
        yield index
        print("Running line 6 with index", index)
        index += 1
    print("Running line 7 with index", index)
```
-/
inductive RangeGenSt : Type
  | start (stop : Int)
  | susp (stop index : Int)
  | fin
deriving DecidableEq, Repr

/-- Calling the generator function `_range_generator_function` runs none of
its body: it only builds the generator object, paused before its first line,
and prints nothing. -/
def _range_generator_function (stop : Int) : RangeGenSt × List String :=
  (.start stop, [])

/-- The plain wrapper `range_generator_function`: validation runs eagerly and
its prints happen immediately, before any body line of the generator. -/
def range_generator_function (stop : PyObj) : Except PyExc RangeGenSt × List String :=
  match stop with
  | .str _ => (.error (.typeError "stop must be an int"), ["Running line 1"])
  | .int n =>
    if n < 0 then (.error (.valueError "stop must be >= 0"), ["Running line 1"])
    else
      let (g, l) := _range_generator_function n
      (.ok g, ["Running line 1", "Running line 2"] ++ l ++ ["Running line 3"])

/-- One `__next__()` call on the range generator, with its printed lines. -/
def rangeGenNext : RangeGenSt → (GenResult Int Unit × RangeGenSt) × List String
  | .start stop =>
    if 0 < stop then
      ((.yielded 0, .susp stop 0), ["Running line 4", "Running line 5 with index 0"])
    else
      ((.stopIteration none, .fin), ["Running line 4", "Running line 7 with index 0"])
  | .susp stop i =>
    if i + 1 < stop then
      ((.yielded (i + 1), .susp stop (i + 1)),
        ["Running line 6 with index " ++ toString i,
         "Running line 5 with index " ++ toString (i + 1)])
    else
      ((.stopIteration none, .fin),
        ["Running line 6 with index " ++ toString i,
         "Running line 7 with index " ++ toString (i + 1)])
  | .fin => ((.stopIteration none, .fin), [])

/-! ## A generator that yields once and returns a value (second notebook)

```python
def generator_function_that_returns_a_value():
    yield 0
    return 'return_value'
```
The state machine is stated for an arbitrary produced value `v` and return
value `r`; the notebook instance is `v = 0`, `r = 'return_value'`. -/
inductive OneShotSt : Type
  | start
  | susp
  | fin
deriving DecidableEq, Repr

/-- `__next__()` on a generator whose body is `yield v; return r`:
the second call raises `StopIteration(r)`; every later call raises a bare
`StopIteration` (its `value` attribute is `None`). -/
def yieldReturnNext (v : Int) (r : String) : OneShotSt → GenResult Int String × OneShotSt
  | .start => (.yielded v, .susp)
  | .susp => (.stopIteration (some r), .fin)
  | .fin => (.stopIteration none, .fin)

/-- The notebook instance of the yield-then-return generator. -/
def generator_function_that_returns_a_value :
    OneShotSt → GenResult Int String × OneShotSt :=
  yieldReturnNext 0 "return_value"

/-! ## The throw-demonstration generator (second notebook)

```python
def generator_function():
    for i in range(2):
        try:
            yield i
        except ExpectedError as exc:
            print('Caught exception', repr(exc))
            continue
        except Exception as exc:
            print('Did not catch exception', repr(exc))
            raise
    return i
```
`susp i` is the state paused at `yield i`.  `ExpectedError` is caught and
recovered from; every other exception of `PyExc` propagates out: ordinary
exceptions are caught by the second handler and re-raised, and
`GeneratorExit` is not an `Exception` so no handler matches it. -/
inductive EgSt : Type
  | start
  | susp (i : Nat)
  | fin
deriving DecidableEq, Repr

/-- `__next__()` on the throw-demonstration generator. -/
def egNext : EgSt → GenResult Nat Nat × EgSt
  | .start => (.yielded 0, .susp 0)
  | .susp i =>
    if i + 1 < 2 then (.yielded (i + 1), .susp (i + 1))
    else (.stopIteration (some i), .fin)
  | .fin => (.stopIteration none, .fin)

/-- `throw(e)` on the throw-demonstration generator.  At a suspension point,
`ExpectedError` is handled by `continue` (so the call behaves like
`__next__()` from there); any other exception propagates out and the
generator is finished.  On an exhausted generator the thrown exception
itself propagates. -/
def egThrow (e : PyExc) : EgSt → GenResult Nat Nat × EgSt
  | .start => (.error e, .fin)
  | .susp i =>
    if e = .expectedError then
      if i + 1 < 2 then (.yielded (i + 1), .susp (i + 1))
      else (.stopIteration (some i), .fin)
    else (.error e, .fin)
  | .fin => (.error e, .fin)

/-! ## The adder semicoroutine, as a generator function (second notebook)

```python
def adder_function():
    total = 0
    while True:
        print('At start of adder loop, current total is', total)
        try:
            integers = (yield total)
        except (Exception, GeneratorExit) as exc:
            print('Adder received exception', repr(exc), 'and is returning with final total', total)
            return total
        if not isinstance(integers, (list, tuple)):
            integers = [integers]
        if integers and isinstance(integers[0], collections.Iterable):
            integers = integers[0]
        print('Adder received', integers)
        total += sum(integers)
```
-/

/-- The integer payloads the notebook sends into the adders: a bare int, a
list/tuple of ints, or a tuple whose sole element is an iterable of ints
(such as `(range(8),)`). -/
inductive SentValue : Type
  | single (n : Int)
  | listOfInts (xs : List Int)
  | wrappedIterable (xs : List Int)
deriving DecidableEq, Repr

/-- The two normalisation lines of `adder_function`:
a non-list/tuple is wrapped into `[integers]`; a non-empty list/tuple whose
first element is an iterable is replaced by that iterable.  (An int is not
an `Iterable`, so `single` and `listOfInts` keep their elements.) -/
def adderFnInts : SentValue → List Int
  | .single n => [n]
  | .listOfInts xs => xs
  | .wrappedIterable xs => xs

/-- The identical two normalisation lines, as they reappear verbatim inside
`Adder.send` of the custom generator class. -/
def adderClsInts : SentValue → List Int
  | .single n => [n]
  | .listOfInts xs => xs
  | .wrappedIterable xs => xs

inductive AdderGenSt : Type
  | start
  | susp (total : Int)
  | fin
deriving DecidableEq, Repr

/-- `send(v)` on the generator-based adder.  At `susp total` the sent value
becomes the result of the `yield` expression, is normalised, summed into
`total`, and the new total is yielded.  Sending a (non-`None`) value into a
just-started generator is a `TypeError` in Python; on an exhausted
generator, `send` raises a bare `StopIteration`. -/
def adder_function_send (v : SentValue) : AdderGenSt → GenResult Int Int × AdderGenSt
  | .start => (.error (.typeError "cannot send non-None value to a just-started generator"), .start)
  | .susp t =>
    let t' := t + (adderFnInts v).sum
    (.yielded t', .susp t')
  | .fin => (.stopIteration none, .fin)

/-- `next()` on the generator-based adder. The first call runs the body to
the first `yield total` and produces 0.  A later plain `next()` would make
the `yield` expression evaluate to `None`, and `sum([None])` raises a
`TypeError` that propagates out, finishing the generator. -/
def adder_function_next : AdderGenSt → GenResult Int Int × AdderGenSt
  | .start => (.yielded 0, .susp 0)
  | .susp _ => (.error (.typeError "unsupported operand type"), .fin)
  | .fin => (.stopIteration none, .fin)

/-- `throw(e)` on the generator-based adder: at a suspension point the
`except (Exception, GeneratorExit)` clause catches every exception of
`PyExc` and the body does `return total`, so the call raises
`StopIteration(total)`.  On an exhausted generator the thrown exception
itself propagates. -/
def adder_function_throw (e : PyExc) : AdderGenSt → GenResult Int Int × AdderGenSt
  | .start => (.error e, .fin)
  | .susp t => (.stopIteration (some t), .fin)
  | .fin => (.error e, .fin)

/-! ## The adder semicoroutine, as a custom `Generator` subclass

```python
class Adder(collections.Generator):
    def __init__(self):
        super().__init__()
        self.total = 0
        self.stopped = False

    def send(self, integers):
        if self.stopped:
            raise StopIteration
        if not isinstance(integers, (list, tuple)):
            integers = [integers]
        if integers and isinstance(integers[0], collections.Iterable):
            integers = integers[0]
        self.total += sum(integers)
        return self.total

    def throw(self, exc_type, exc_value=None, exc_traceback=None):
        if self.stopped:
            raise StopIteration
        self.stopped = True
        raise StopIteration(self.total)
```
-/
structure AdderSt : Type where
  total : Int
  stopped : Bool
deriving DecidableEq, Repr

/-- `Adder.send`: raise a bare `StopIteration` once stopped; otherwise
normalise, accumulate, and return the new total. -/
def Adder.send (v : SentValue) (a : AdderSt) : GenResult Int Int × AdderSt :=
  if a.stopped then (.stopIteration none, a)
  else
    let t' := a.total + (adderClsInts v).sum
    (.yielded t', ⟨t', false⟩)

/-- `Adder.throw`: raise a bare `StopIteration` once stopped; otherwise mark
the adder stopped and raise `StopIteration(total)`. -/
def Adder.throw (_e : PyExc) (a : AdderSt) : GenResult Int Int × AdderSt :=
  if a.stopped then (.stopIteration none, a)
  else (.stopIteration (some a.total), ⟨a.total, true⟩)

/-- Feed a list of sent values, one `send` per element, into the
generator-based adder, collecting the result of each call. -/
def adderGenRun : AdderGenSt → List SentValue → List (GenResult Int Int) × AdderGenSt
  | s, [] => ([], s)
  | s, v :: vs =>
    ((adder_function_send v s).1 :: (adderGenRun (adder_function_send v s).2 vs).1,
      (adderGenRun (adder_function_send v s).2 vs).2)

/-- Feed a list of sent values, one `Adder.send` per element, into the
class-based adder, collecting the result of each call. -/
def adderClsRun : AdderSt → List SentValue → List (GenResult Int Int) × AdderSt
  | a, [] => ([], a)
  | a, v :: vs =>
    ((Adder.send v a).1 :: (adderClsRun (Adder.send v a).2 vs).1,
      (adderClsRun (Adder.send v a).2 vs).2)

/-- The running totals: element `k` is the sum of all integers delivered by
the first `k + 1` sends, starting from total `t`. -/
def runningTotals (t : Int) : List SentValue → List Int
  | [] => []
  | v :: vs => (t + (adderFnInts v).sum) :: runningTotals (t + (adderFnInts v).sum) vs

/-- The grand total of all integers delivered by a list of sends. -/
def sentTotal (vs : List SentValue) : Int :=
  (vs.map fun v => (adderFnInts v).sum).sum

/-! ## `close()` (second notebook)

The markdown contract: `close()` normally returns `None`, if the generator
function returns without any errors, or if the `GeneratorExit` exception is
propagated out of the generator function.  If the generator function raises
a new exception while handling `GeneratorExit`, then that exception is
raised by `close()`.  It is illegal for the generator to yield a new value
while handling `close()`, so doing so causes `RuntimeError` to be raised
instead. -/
def genClose {σ α β : Type} (throwFn : PyExc → σ → GenResult α β × σ) (s : σ) :
    Except PyExc Unit × σ :=
  match throwFn .generatorExit s with
  | (.stopIteration _, s') => (.ok (), s')
  | (.error .generatorExit, s') => (.ok (), s')
  | (.error e, s') => (.error e, s')
  | (.yielded _, s') => (.error (.runtimeError "generator ignored GeneratorExit"), s')

/-! The first `close()` demonstration generator:
```python
def generator_function():
    try:
        yield
    except:
        traceback.print_exc()
        raise
    print('About to yield 1')
    yield 1
```
-/
inductive CloseASt : Type
  | start
  | susp0
  | susp1
  | fin
deriving DecidableEq, Repr

/-- `__next__()` on the first close-demonstration generator. -/
def closeDemoANext : CloseASt → GenResult (Option Int) Unit × CloseASt
  | .start => (.yielded none, .susp0)
  | .susp0 => (.yielded (some 1), .susp1)
  | .susp1 => (.stopIteration none, .fin)
  | .fin => (.stopIteration none, .fin)

/-- `throw(e)` on the first close-demonstration generator: at the first
`yield` the bare `except` prints the traceback and re-raises `e`; the
second `yield` is unguarded. -/
def closeDemoAThrow (e : PyExc) : CloseASt → GenResult (Option Int) Unit × CloseASt
  | .start => (.error e, .fin)
  | .susp0 => (.error e, .fin)
  | .susp1 => (.error e, .fin)
  | .fin => (.error e, .fin)

/-! The second `close()` demonstration generator:
```python
def generator_function():
    try:
        yield 0
    except:
        raise KeyError('key')
```
-/
inductive CloseBSt : Type
  | start
  | susp
  | fin
deriving DecidableEq, Repr

/-- `__next__()` on the second close-demonstration generator. -/
def closeDemoBNext : CloseBSt → GenResult Int Unit × CloseBSt
  | .start => (.yielded 0, .susp)
  | .susp => (.stopIteration none, .fin)
  | .fin => (.stopIteration none, .fin)

/-- `throw(e)` on the second close-demonstration generator: at the `yield`
the bare `except` replaces any incoming exception with `KeyError('key')`. -/
def closeDemoBThrow (e : PyExc) : CloseBSt → GenResult Int Unit × CloseBSt
  | .start => (.error e, .fin)
  | .susp => (.error (.keyError "key"), .fin)
  | .fin => (.error e, .fin)

/-! ## `_GeneratorContextManager` (second notebook, quoted CPython source)

```python
class _GeneratorContextManager(ContextDecorator, AbstractContextManager):
    def __init__(self, func, args, kwds):
        self.gen = func(*args, **kwds)

    def __enter__(self):
        try:
            return next(self.gen)
        except StopIteration:
            raise RuntimeError("generator didn't yield") from None

    def __exit__(self, type, value, traceback):
        if type is None:
            try:
                next(self.gen)
            except StopIteration:
                return
            else:
                raise RuntimeError("generator didn't stop")
        else:
            try:
                self.gen.throw(type, value, traceback)
                raise RuntimeError("generator didn't stop after throw()")
            except StopIteration as exc:
                return exc is not value
```
The wrapped generator is abstracted as a state `s : σ` with step functions
`nextFn` and `throwFn`. -/

/-- `__enter__`: return the first produced value; a `StopIteration` becomes
the usage error `RuntimeError("generator did not yield")`; any other
exception propagates. -/
def gcmEnter {σ α β : Type} (nextFn : σ → GenResult α β × σ) (s : σ) :
    Except PyExc α × σ :=
  match nextFn s with
  | (.yielded v, s') => (.ok v, s')
  | (.stopIteration _, s') => (.error (.runtimeError "generator did not yield"), s')
  | (.error e, s') => (.error e, s')

/-- `__exit__`: `injected` is the exception prevailing when the scoped body
exits (`none` for a normal exit).  `Except.ok b` means `__exit__` returned
with truthiness `b` (true suppresses the exception); `Except.error e` means
`__exit__` itself raised `e`.  In the abnormal branch, `exc is not value`
compares the caught `StopIteration` instance against the injected exception
object: an injected `PyExc` is never a `StopIteration` instance here, so
that test is always true. -/
def gcmExit {σ α β : Type} (nextFn : σ → GenResult α β × σ)
    (throwFn : PyExc → σ → GenResult α β × σ) (s : σ) (injected : Option PyExc) :
    Except PyExc Bool × σ :=
  match injected with
  | none =>
    match nextFn s with
    | (.stopIteration _, s') => (.ok false, s')
    | (.yielded _, s') => (.error (.runtimeError "generator did not stop"), s')
    | (.error e, s') => (.error e, s')
  | some exc =>
    match throwFn exc s with
    | (.yielded _, s') => (.error (.runtimeError "generator did not stop after throw"), s')
    | (.stopIteration _, s') => (.ok true, s')
    | (.error e, s') => (.error e, s')

/-! ## The setup/cleanup resource generator

The typical-usage pattern from the `contextmanager` docstring,
instantiated to the acquire/release scenario:
```python
@contextmanager
def some_generator():
    acquire
    try:
        yield value
    finally:
        release
```
The second state component logs each executed side effect in order. -/
inductive ResSt : Type
  | start
  | susp
  | fin
deriving DecidableEq, Repr

/-- `__next__()` on the resource generator: the first call runs `acquire`
and yields; the second runs the `finally` block (`release`) and raises
`StopIteration`. -/
def resourceNext : ResSt × List String → GenResult Unit Unit × (ResSt × List String)
  | (.start, l) => (.yielded (), (.susp, l ++ ["acquire"]))
  | (.susp, l) => (.stopIteration none, (.fin, l ++ ["release"]))
  | (.fin, l) => (.stopIteration none, (.fin, l))

/-- `throw(e)` on the resource generator: at the `yield`, the `finally`
block runs `release` and then `e` propagates out unhandled. -/
def resourceThrow (e : PyExc) : ResSt × List String → GenResult Unit Unit × (ResSt × List String)
  | (.start, l) => (.error e, (.fin, l))
  | (.susp, l) => (.error e, (.fin, l ++ ["release"]))
  | (.fin, l) => (.error e, (.fin, l))

/-! # Lemmas and claim theorems -/

theorem mkRange_init (n : Nat) : RangeIterator.init (.int n) = .ok (mkRange n) := by
  simp [RangeIterator.init, mkRange, Int.not_lt.mpr (Int.ofNat_nonneg n)]

/-- A `__next__()` call that raises `StopIteration` leaves the iterator
state untouched. -/
theorem RangeIterator.nextCall_of_none (it : RangeIterator)
    (h : it.nextCall.1 = none) : it.nextCall = (none, it) := by
  cases hit : it.next_item with
  | inl k =>
    exfalso
    by_cases hc : it.stop ≤ k + 1 <;>
      simp [RangeIterator.nextCall, hit, hc] at h
  | inr u =>
    cases u
    simp [RangeIterator.nextCall, hit]

/-- An iterator holding the `StopIteration` marker raises `StopIteration`
on every one of the next `m` calls. -/
theorem RangeIterator.callList_of_exhausted (it : RangeIterator)
    (h : it.next_item = .inr ()) : ∀ m, it.callList m = List.replicate m none := by
  intro m
  induction m with
  | zero => rfl
  | succ m ih =>
    simp [RangeIterator.callList, RangeIterator.nextCall, h, List.replicate_succ, ih]

/-- An iterator holding the `StopIteration` marker is unchanged by any
number of further calls. -/
theorem RangeIterator.afterCalls_of_exhausted (it : RangeIterator)
    (h : it.next_item = .inr ()) : ∀ m, it.afterCalls m = it := by
  intro m
  induction m with
  | zero => rfl
  | succ m ih =>
    simp [RangeIterator.afterCalls, RangeIterator.nextCall, h, ih]

/-- Splitting a run of calls into two runs. -/
theorem RangeIterator.afterCalls_add (it : RangeIterator) (a b : Nat) :
    it.afterCalls (a + b) = (it.afterCalls a).afterCalls b := by
  induction a generalizing it with
  | zero => rw [Nat.zero_add]; rfl
  | succ a ih =>
    rw [Nat.succ_add]
    show (it.nextCall.2).afterCalls (a + b) = ((it.nextCall.2).afterCalls a).afterCalls b
    exact ih _

/-- From a state paused holding value `k` of a limit-`n` iterator with
`n = k + j + 1`, the next `j + 2` calls produce `k, k + 1, …, k + j` and
then `StopIteration`. -/
theorem RangeIterator.callList_susp : ∀ (j : Nat) (k n : Int), n = k + j + 1 →
    RangeIterator.callList ⟨n, .inl k⟩ (j + 2) =
      ((List.range (j + 1)).map fun i : Nat => some (k + (i : Int))) ++ [none] := by
  intro j
  induction j with
  | zero =>
    intro k n h
    have hc : n ≤ k + 1 := by omega
    have hstep : RangeIterator.nextCall ⟨n, .inl k⟩ = (some k, ⟨n, .inr ()⟩) := by
      simp [RangeIterator.nextCall, hc]
    show RangeIterator.callList ⟨n, .inl k⟩ (1 + 1) = _
    rw [RangeIterator.callList, hstep]
    simp only
    rw [show (1 : Nat) = 0 + 1 from rfl, RangeIterator.callList]
    simp [RangeIterator.callList, RangeIterator.nextCall, List.range_succ]
  | succ j ih =>
    intro k n h
    have hc : ¬(n ≤ k + 1) := by omega
    have hstep : RangeIterator.nextCall ⟨n, .inl k⟩ = (some k, ⟨n, .inl (k + 1)⟩) := by
      simp [RangeIterator.nextCall, hc]
    have ih' := ih (k + 1) n (by push_cast at h ⊢; omega)
    show RangeIterator.callList ⟨n, .inl k⟩ ((j + 2) + 1) = _
    rw [RangeIterator.callList, hstep]
    simp only
    rw [ih']
    have hfun : ((fun i : Nat => some (k + (i : Int))) ∘ Nat.succ) =
        fun i : Nat => some ((k + 1) + (i : Int)) := by
      funext i
      simp only [Function.comp]
      congr 1
      push_cast
      ring
    conv_rhs => rw [List.range_succ_eq_map, List.map_cons, List.map_map, hfun]
    simp

/-- From a state paused holding value `k` of a limit-`n` iterator with
`n = k + j + 1`, the next `j + 1` calls exhaust the iterator. -/
theorem RangeIterator.afterCalls_susp : ∀ (j : Nat) (k n : Int), n = k + j + 1 →
    RangeIterator.afterCalls ⟨n, .inl k⟩ (j + 1) = ⟨n, .inr ()⟩ := by
  intro j
  induction j with
  | zero =>
    intro k n h
    have hc : n ≤ k + 1 := by omega
    show (RangeIterator.nextCall ⟨n, .inl k⟩).2.afterCalls 0 = _
    simp [RangeIterator.nextCall, hc, RangeIterator.afterCalls]
  | succ j ih =>
    intro k n h
    have hc : ¬(n ≤ k + 1) := by omega
    have hstep : RangeIterator.nextCall ⟨n, .inl k⟩ = (some k, ⟨n, .inl (k + 1)⟩) := by
      simp [RangeIterator.nextCall, hc]
    show (RangeIterator.nextCall ⟨n, .inl k⟩).2.afterCalls (j + 1) = _
    rw [hstep]
    exact ih (k + 1) n (by push_cast at h ⊢; omega)

/-- A fresh limit-`n` iterator, after `n + 1` calls, holds the marker. -/
theorem RangeIterator.afterCalls_mkRange (n : Nat) :
    (mkRange n).afterCalls (n + 1) = ⟨(n : Int), .inr ()⟩ := by
  cases n with
  | zero =>
    have h0 : mkRange 0 = ⟨(0 : Int), .inr ()⟩ := by simp [mkRange]
    rw [h0]
    exact RangeIterator.afterCalls_of_exhausted _ rfl 1
  | succ j =>
    have h1 : mkRange (j + 1) = ⟨((j : Int) + 1), .inl 0⟩ := by
      unfold mkRange
      rw [if_pos (by omega)]
      congr 1
    rw [h1, RangeIterator.afterCalls_add _ (j + 1) 1,
      RangeIterator.afterCalls_susp j 0 _ (by ring),
      RangeIterator.afterCalls_of_exhausted _ rfl 1]
    congr 1

/-- A fresh limit-`n` iterator produces exactly `0, …, n - 1` and then
`StopIteration` over its first `n + 1` calls. -/
theorem RangeIterator.callList_mkRange (n : Nat) :
    (mkRange n).callList (n + 1) = expectedCalls n := by
  cases n with
  | zero =>
    have h0 : mkRange 0 = ⟨(0 : Int), .inr ()⟩ := by simp [mkRange]
    rw [h0, RangeIterator.callList_of_exhausted _ rfl 1]
    rfl
  | succ j =>
    have h1 : mkRange (j + 1) = ⟨((j : Int) + 1), .inl 0⟩ := by
      unfold mkRange
      rw [if_pos (by omega)]
      congr 1
    rw [h1]
    show RangeIterator.callList _ (j + 2) = _
    rw [RangeIterator.callList_susp j 0 _ (by ring)]
    unfold expectedCalls
    congr 1
    apply List.map_congr_left
    intro i _
    simp

/-- A `__next__()` call that raises `StopIteration` can only happen when the
iterator already holds the `StopIteration` marker. -/
theorem RangeIterator.exhausted_of_none (it : RangeIterator)
    (h : it.nextCall.1 = none) : it.next_item = .inr () := by
  cases hit : it.next_item with
  | inl k =>
    exfalso
    by_cases hc : it.stop ≤ k + 1 <;>
      simp [RangeIterator.nextCall, hit, hc] at h
  | inr u => cases u; rfl

/-- `next(iterator, default)` on an exhausted iterator substitutes the
default and leaves the state unchanged. -/
theorem RangeIterator.nextDefault_exhausted (n d : Int) :
    RangeIterator.nextDefault ⟨n, .inr ()⟩ d = (d, ⟨n, .inr ()⟩) := rfl

/-- Claim C1: once a resumption call has signalled termination, every
subsequent `next`/`send` call signals termination again.  For
`RangeIterator`: a call that raises `StopIteration` implies every further
call raises `StopIteration`.  For the custom `Adder` class: once `stopped`
is set, `send` and `throw` raise `StopIteration` and keep the state.  For
the generator state machines (range generator, yield-then-return generator,
throw-demonstration generator, generator adder): the finished state is a
fixpoint that always signals termination on `next`/`send`. -/
theorem claim_C1 : ∀ (it : RangeIterator) (a : AdderSt),
    (it.nextCall.1 = none → ∀ m, it.callList m = List.replicate m none) ∧
    (a.stopped = true →
      (∀ v, Adder.send v a = (.stopIteration none, a)) ∧
      (∀ e, Adder.throw e a = (.stopIteration none, a))) ∧
    rangeGenNext .fin = ((.stopIteration none, .fin), []) ∧
    (∀ v r, yieldReturnNext v r .fin = (.stopIteration none, .fin)) ∧
    egNext .fin = (.stopIteration none, .fin) ∧
    (∀ v, adder_function_send v .fin = (.stopIteration none, .fin)) ∧
    adder_function_next .fin = (.stopIteration none, .fin) := by
  intro it a
  refine ⟨?_, ?_, rfl, fun v r => rfl, rfl, fun v => rfl, rfl⟩
  · intro h
    exact RangeIterator.callList_of_exhausted it (RangeIterator.exhausted_of_none it h)
  · intro h
    constructor
    · intro v; simp [Adder.send, h]
    · intro e; simp [Adder.throw, h]

theorem claim_C1_witness :
    RangeIterator.callList ⟨2, .inr ()⟩ 3 = List.replicate 3 none ∧
    Adder.send (.single 5) ⟨44, true⟩ = (.stopIteration none, ⟨44, true⟩) ∧
    Adder.throw .stopAdder ⟨44, true⟩ = (.stopIteration none, ⟨44, true⟩) := by
  have h := claim_C1 ⟨2, .inr ()⟩ ⟨44, true⟩
  exact ⟨h.1 (by decide) 3, (h.2.1 rfl).1 (.single 5), (h.2.1 rfl).2 .stopAdder⟩

/-- Claim C2: a computation whose body produces `v` and then returns `r`
yields `v` on the first call; the second call signals termination carrying
`r`; every later call signals termination carrying no value.  The notebook
instance (`yield 0; return 'return_value'`) behaves accordingly. -/
theorem claim_C2 : ∀ (v : Int) (r : String),
    yieldReturnNext v r .start = (.yielded v, .susp) ∧
    yieldReturnNext v r .susp = (.stopIteration (some r), .fin) ∧
    yieldReturnNext v r .fin = (.stopIteration none, .fin) ∧
    generator_function_that_returns_a_value .start = (.yielded 0, .susp) ∧
    generator_function_that_returns_a_value .susp =
      (.stopIteration (some "return_value"), .fin) ∧
    generator_function_that_returns_a_value .fin = (.stopIteration none, .fin) :=
  fun _ _ => ⟨rfl, rfl, rfl, rfl, rfl, rfl⟩

/-- Claim C3: throwing an error the current suspension point is not guarded
against propagates exactly that error to the caller and finishes the
generator, after which resumption signals termination.  For the
throw-demonstration generator, every exception other than `ExpectedError`
is unguarded (ordinary exceptions are caught and re-raised; `GeneratorExit`
matches no handler). -/
theorem claim_C3 : ∀ (e : PyExc) (i : Nat), e ≠ .expectedError →
    egThrow e (.susp i) = (.error e, .fin) ∧
    egNext .fin = (.stopIteration none, .fin) := by
  intro e i h
  exact ⟨by simp [egThrow, h], rfl⟩

theorem claim_C3_witness :
    egThrow (.keyError "key") (.susp 0) = (.error (.keyError "key"), .fin) ∧
    egNext .fin = (.stopIteration none, .fin) :=
  claim_C3 (.keyError "key") 0 (by decide)

/-- Claim C4: throwing an error the current suspension point is guarded
against returns the next produced value if the computation yields again
(`susp 0 ↦ yielded 1`), or signals termination carrying the final result if
it then completes (`susp 1 ↦ StopIteration(1)`), and the thrown error never
reaches the caller.  The generator-form adder likewise converts any thrown
exception into termination carrying its final total. -/
theorem claim_C4 : ∀ (i : Nat) (e : PyExc) (t : Int),
    (i + 1 < 2 → egThrow .expectedError (.susp i) = (.yielded (i + 1), .susp (i + 1))) ∧
    (¬i + 1 < 2 → egThrow .expectedError (.susp i) = (.stopIteration (some i), .fin)) ∧
    (∀ (er : PyExc) (s' : EgSt), egThrow .expectedError (.susp i) ≠ (.error er, s')) ∧
    adder_function_throw e (.susp t) = (.stopIteration (some t), .fin) := by
  intro i e t
  refine ⟨?_, ?_, ?_, rfl⟩
  · intro h; simp [egThrow, h]
  · intro h; simp [egThrow, h]
  · intro er s'
    by_cases h : i + 1 < 2 <;> simp [egThrow, h]

theorem claim_C4_witness :
    egThrow .expectedError (.susp 0) = (.yielded 1, .susp 1) ∧
    egThrow .expectedError (.susp 1) = (.stopIteration (some 1), .fin) :=
  ⟨(claim_C4 0 .expectedError 0).1 (by decide),
   (claim_C4 1 .expectedError 0).2.1 (by decide)⟩

/-- Claim C5: `close()` returns normally when the generator responds to
`GeneratorExit` by letting it propagate (first close demo) or by returning
(the adder returns its total); a different error raised during cleanup
(`KeyError` in the second close demo) propagates to the caller of
`close()`; and if the generator yields a value while being closed, a
distinct `RuntimeError` is raised instead. -/
theorem claim_C5 : ∀ (t : Int) {σ α β : Type}
    (throwFn : PyExc → σ → GenResult α β × σ) (s s' : σ) (v : α),
    genClose closeDemoAThrow .susp0 = (.ok (), .fin) ∧
    genClose adder_function_throw (.susp t) = (.ok (), .fin) ∧
    genClose closeDemoBThrow .susp = (.error (.keyError "key"), .fin) ∧
    (throwFn .generatorExit s = (.yielded v, s') →
      genClose throwFn s = (.error (.runtimeError "generator ignored GeneratorExit"), s')) := by
  intro t σ α β throwFn s s' v
  refine ⟨rfl, rfl, rfl, ?_⟩
  intro h
  simp [genClose, h]

theorem claim_C5_witness :
    genClose (fun _ (s : Unit) => ((.yielded (0 : Int) : GenResult Int Int), s)) () =
      (.error (.runtimeError "generator ignored GeneratorExit"), ()) :=
  (claim_C5 0 (fun _ s => (.yielded 0, s)) () () 0).2.2.2 rfl

/-- Claim C6: for the context-scoped setup/cleanup wrapper — entry is a
usage error (`RuntimeError`) when the generator produces no value; exit on
the normal path is a usage error when the generator produces a second
value; on abnormal exit the prevailing error is thrown into the generator,
and exit reports the error handled (returns true) exactly when the
generator suppresses it by completing normally, while an error the
generator raises (the same one re-raised, or a different one) propagates
out of exit; and for the acquire/yield/release generator, `release` runs
even on abnormal exit, after which the same error re-raises. -/
theorem claim_C6 : ∀ {σ α β : Type} (nextFn : σ → GenResult α β × σ)
    (throwFn : PyExc → σ → GenResult α β × σ) (s s' : σ) (v : α) (w : Option β)
    (exc e : PyExc) (l : List String),
    (nextFn s = (.stopIteration w, s') →
      gcmEnter nextFn s = (.error (.runtimeError "generator did not yield"), s')) ∧
    (nextFn s = (.yielded v, s') →
      gcmExit nextFn throwFn s none = (.error (.runtimeError "generator did not stop"), s')) ∧
    ((gcmExit nextFn throwFn s (some exc)).1 = .ok true ↔
      ∃ w' s'', throwFn exc s = (.stopIteration w', s'')) ∧
    (throwFn exc s = (.error e, s') →
      gcmExit nextFn throwFn s (some exc) = (.error e, s')) ∧
    gcmEnter resourceNext (.start, ([] : List String)) = (.ok (), (.susp, ["acquire"])) ∧
    gcmExit resourceNext resourceThrow (.susp, l) (some e) =
      (.error e, (.fin, l ++ ["release"])) := by
  intro σ α β nextFn throwFn s s' v w exc e l
  refine ⟨?_, ?_, ?_, ?_, rfl, rfl⟩
  · intro h; simp [gcmEnter, h]
  · intro h; simp [gcmExit, h]
  · constructor
    · intro h
      rcases hq : throwFn exc s with ⟨r, s2⟩
      cases r with
      | yielded x => simp [gcmExit, hq] at h
      | stopIteration w2 => exact ⟨w2, s2, rfl⟩
      | error e2 => simp [gcmExit, hq] at h
    · rintro ⟨w2, s2, hq⟩
      simp [gcmExit, hq]
  · intro h; simp [gcmExit, h]

theorem claim_C6_witness :
    gcmEnter resourceNext (ResSt.susp, ([] : List String)) =
      (.error (.runtimeError "generator did not yield"), (.fin, ["release"])) ∧
    gcmExit resourceNext resourceThrow (ResSt.start, ([] : List String)) none =
      (.error (.runtimeError "generator did not stop"), (.susp, ["acquire"])) ∧
    gcmExit resourceNext resourceThrow (ResSt.susp, ([] : List String))
        (some (.keyError "k")) = (.error (.keyError "k"), (.fin, ["release"])) :=
  ⟨(claim_C6 resourceNext resourceThrow (ResSt.susp, []) (ResSt.fin, ["release"]) ()
      none (.keyError "k") (.keyError "k") []).1 rfl,
   (claim_C6 resourceNext resourceThrow (ResSt.start, []) (ResSt.susp, ["acquire"]) ()
      none (.keyError "k") (.keyError "k") []).2.1 rfl,
   (claim_C6 resourceNext resourceThrow (ResSt.susp, []) (ResSt.fin, ["release"]) ()
      none (.keyError "k") (.keyError "k") []).2.2.2.1 rfl⟩

/-- Claim C10: construction of a bounded counting computation validates its
limit eagerly.  `RangeIterator.__init__` and the plain wrapper
`range_generator_function` raise `TypeError` for a non-int limit and
`ValueError` for a negative one, at construction time; calling the
generator function `_range_generator_function` itself runs no body code
(its print log is empty), and the body only starts running (beginning with
line 4) at the first resumption. -/
theorem claim_C10 : ∀ (s : String) (n : Int),
    range_generator_function (.str s) =
      (.error (.typeError "stop must be an int"), ["Running line 1"]) ∧
    (n < 0 → range_generator_function (.int n) =
      (.error (.valueError "stop must be >= 0"), ["Running line 1"])) ∧
    (0 ≤ n → range_generator_function (.int n) =
      (.ok (.start n), ["Running line 1", "Running line 2", "Running line 3"])) ∧
    (_range_generator_function n).2 = [] ∧
    RangeIterator.init (.str s) = .error (.typeError "stop must be an int") ∧
    (n < 0 → RangeIterator.init (.int n) = .error (.valueError "stop must be >= 0")) ∧
    (rangeGenNext (.start n)).2.head? = some "Running line 4" := by
  intro s n
  refine ⟨rfl, ?_, ?_, rfl, rfl, ?_, ?_⟩
  · intro h; simp [range_generator_function, h]
  · intro h; simp [range_generator_function, Int.not_lt.mpr h, _range_generator_function]
  · intro h; simp [RangeIterator.init, h]
  · by_cases h : 0 < n <;> simp [rangeGenNext, h]

theorem claim_C10_witness :
    range_generator_function (.int (-1)) =
      (.error (.valueError "stop must be >= 0"), ["Running line 1"]) ∧
    range_generator_function (.int 2) =
      (.ok (.start 2), ["Running line 1", "Running line 2", "Running line 3"]) ∧
    RangeIterator.init (.int (-1)) = .error (.valueError "stop must be >= 0") :=
  ⟨(claim_C10 "x" (-1)).2.1 (by decide),
   (claim_C10 "x" 2).2.2.1 (by decide),
   (claim_C10 "x" (-1)).2.2.2.2.2.1 (by decide)⟩

/-- The manual loop over an already-exhausted iterator applies the body to
nothing (for any positive fuel). -/
theorem manualFor_exhausted {γ : Type} (f : Int → γ) (n : Int) (m : Nat) :
    manual_simplified_for_loop RangeIterator.nextCall f (m + 1) ⟨n, .inr ()⟩ =
      some [] := rfl

/-- The manual loop from a state paused holding `k` of a limit-`n` iterator
with `n = k + j + 1` applies the body to `k, …, k + j` in order. -/
theorem manualFor_susp {γ : Type} (f : Int → γ) : ∀ (j : Nat) (k n : Int) (fuel : Nat),
    n = k + j + 1 → j + 2 ≤ fuel →
    manual_simplified_for_loop RangeIterator.nextCall f fuel ⟨n, .inl k⟩ =
      some ((List.range (j + 1)).map fun i : Nat => f (k + (i : Int))) := by
  intro j
  induction j with
  | zero =>
    intro k n fuel h hf
    obtain ⟨m, rfl⟩ : ∃ m, fuel = (m + 1) + 1 := ⟨fuel - 2, by omega⟩
    have hstep : RangeIterator.nextCall ⟨n, .inl k⟩ = (some k, ⟨n, .inr ()⟩) := by
      simp [RangeIterator.nextCall, show n ≤ k + 1 by omega]
    rw [manual_simplified_for_loop, hstep]
    simp only
    rw [manualFor_exhausted]
    simp [List.range_succ]
  | succ j ih =>
    intro k n fuel h hf
    obtain ⟨m, rfl⟩ : ∃ m, fuel = m + 1 := ⟨fuel - 1, by omega⟩
    have hc : ¬(n ≤ k + 1) := by omega
    have hstep : RangeIterator.nextCall ⟨n, .inl k⟩ = (some k, ⟨n, .inl (k + 1)⟩) := by
      simp [RangeIterator.nextCall, hc]
    have ih' := ih (k + 1) n m (by push_cast at h ⊢; omega) (by omega)
    rw [manual_simplified_for_loop, hstep]
    simp only
    rw [ih']
    have hfun : ((fun i : Nat => f (k + (i : Int))) ∘ Nat.succ) =
        fun i : Nat => f ((k + 1) + (i : Int)) := by
      funext i
      simp only [Function.comp]
      congr 1
      push_cast
      ring
    conv_rhs => rw [List.range_succ_eq_map, List.map_cons, List.map_map, hfun]
    simp

/-- The while/try desugaring of the for-loop (with its `running` flag) and
the `manual_simplified_for_loop` function compute the same body trace, on
every iterator, body, fuel and state. -/
theorem forLoopConstruct_eq_manual {σ α γ : Type} (nextFn : σ → Option α × σ)
    (f : α → γ) : ∀ (fuel : Nat) (s : σ),
    forLoopConstruct nextFn f fuel s true =
      manual_simplified_for_loop nextFn f fuel s := by
  intro fuel
  induction fuel with
  | zero => intro s; rfl
  | succ fuel ih =>
    intro s
    rw [forLoopConstruct, manual_simplified_for_loop]
    rcases hq : nextFn s with ⟨r, s2⟩
    cases r with
    | none =>
      show forLoopConstruct nextFn f fuel s2 false = some []
      cases fuel <;> rfl
    | some v =>
      show (forLoopConstruct nextFn f fuel s2 true).map (f v :: ·) =
        (manual_simplified_for_loop nextFn f fuel s2).map (f v :: ·)
      rw [ih]

/-- Claim C8: the for-each consumption protocol, as desugared by
`manual_simplified_for_loop`, applies the body exactly once to each value
the cursor produces, in production order (`0, …, n - 1` for a limit-`n`
range iterator), terminating normally when `StopIteration` is signalled
(the overall result is `some …`, never an exception); and the for-loop
desugaring with its `running` flag is observationally equivalent to it. -/
theorem claim_C8 : ∀ (n fuel : Nat) {γ : Type} (f : Int → γ), n + 1 ≤ fuel →
    (RangeIterable.iter ⟨(n : Int)⟩ = .ok (mkRange n)) ∧
    (manual_simplified_for_loop RangeIterator.nextCall f fuel (mkRange n) =
      some ((List.range n).map fun i : Nat => f (i : Int))) ∧
    (∀ {σ α δ : Type} (nextFn : σ → Option α × σ) (g : α → δ) (fu : Nat) (s : σ),
      forLoopConstruct nextFn g fu s true =
        manual_simplified_for_loop nextFn g fu s) := by
  intro n fuel γ f hf
  refine ⟨mkRange_init n, ?_, ?_⟩
  · cases n with
    | zero =>
      obtain ⟨m, rfl⟩ : ∃ m, fuel = m + 1 := ⟨fuel - 1, by omega⟩
      have h0 : mkRange 0 = ⟨(0 : Int), .inr ()⟩ := by simp [mkRange]
      rw [h0, manualFor_exhausted]
      rfl
    | succ j =>
      have h1 : mkRange (j + 1) = ⟨((j : Int) + 1), .inl 0⟩ := by
        unfold mkRange
        rw [if_pos (by omega)]
        congr 1
      rw [h1, manualFor_susp f j 0 _ fuel (by ring) (by omega)]
      congr 1
      apply List.map_congr_left
      intro i _
      simp
  · intro σ α δ nextFn g fu s
    exact forLoopConstruct_eq_manual nextFn g fu s

theorem claim_C8_witness :
    manual_simplified_for_loop RangeIterator.nextCall (fun i : Int => i) 3 (mkRange 2) =
      some ((List.range 2).map fun i : Nat => (i : Int)) :=
  (claim_C8 2 3 (fun i : Int => i) (by omega)).2.1

/-- The normalisation lines of `Adder.send` are the same code as those of
`adder_function`, and compute the same integer list. -/
theorem adderClsInts_eq : adderClsInts = adderFnInts := by
  funext v
  cases v <;> rfl

/-- Running a list of sends into the generator-based adder from total `t`
returns the running totals and leaves it suspended at the grand total. -/
theorem adderGenRun_susp : ∀ (vs : List SentValue) (t : Int),
    adderGenRun (.susp t) vs =
      ((runningTotals t vs).map GenResult.yielded, .susp (t + sentTotal vs)) := by
  intro vs
  induction vs with
  | nil => intro t; simp [adderGenRun, runningTotals, sentTotal]
  | cons v vs ih =>
    intro t
    simp [adderGenRun, adder_function_send, runningTotals, sentTotal, ih, add_assoc]

/-- Running a list of sends into the class-based adder from total `t`
returns the running totals and leaves it unstopped at the grand total. -/
theorem adderClsRun_run : ∀ (vs : List SentValue) (t : Int),
    adderClsRun ⟨t, false⟩ vs =
      ((runningTotals t vs).map GenResult.yielded, ⟨t + sentTotal vs, false⟩) := by
  intro vs
  induction vs with
  | nil => intro t; simp [adderClsRun, runningTotals, sentTotal]
  | cons v vs ih =>
    intro t
    simp [adderClsRun, Adder.send, adderClsInts_eq, runningTotals, sentTotal, ih,
      add_assoc]

/-- Claim C9: the generator-based adder (advanced to its first suspension
point, total 0) and a fresh `Adder` instance are observationally
equivalent: for every sequence of sends they return the same call results,
each being the running total of all integers received so far, and a
subsequent `throw` signals termination carrying the grand total on both. -/
theorem claim_C9 : ∀ (vs : List SentValue) (e e2 : PyExc),
    (adderGenRun (.susp 0) vs).1 = (adderClsRun ⟨0, false⟩ vs).1 ∧
    (adderGenRun (.susp 0) vs).1 = (runningTotals 0 vs).map GenResult.yielded ∧
    adder_function_throw e (adderGenRun (.susp 0) vs).2 =
      (.stopIteration (some (sentTotal vs)), .fin) ∧
    Adder.throw e2 (adderClsRun ⟨0, false⟩ vs).2 =
      (.stopIteration (some (sentTotal vs)), ⟨sentTotal vs, true⟩) := by
  intro vs e e2
  rw [adderGenRun_susp vs 0, adderClsRun_run vs 0]
  simp [adder_function_throw, Adder.throw]

/-- Claim C7: a limit-`n` range iterator yields exactly `0, …, n - 1`; the
`(n+1)`-th call signals termination; and the fetch-next operation with a
caller-supplied default on the exhausted iterator returns the default
instead of raising.  In particular, for limit 2 the first three calls give
`0, 1, StopIteration` and a fourth call with default 99 returns 99. -/
theorem claim_C7 : ∀ (n : Nat) (d : Int),
    (mkRange n).callList (n + 1) = expectedCalls n ∧
    ((mkRange n).afterCalls (n + 1)).nextDefault d =
      (d, (mkRange n).afterCalls (n + 1)) ∧
    (mkRange 2).callList 3 = [some 0, some 1, none] ∧
    ((mkRange 2).afterCalls 3).nextDefault 99 = (99, (mkRange 2).afterCalls 3) := by
  intro n d
  refine ⟨RangeIterator.callList_mkRange n, ?_, by decide, by decide⟩
  rw [RangeIterator.afterCalls_mkRange]
  exact RangeIterator.nextDefault_exhausted _ _
